import Mathlib

/-!
Shallow embedding of `src/Fred/main.py` (the "Fred" Epic-Games-tracker bot).

The embedding models:
* the game records handled by the bot (only the fields the core logic reads),
* the module-level tracker state (`posted_games`, `posted_upcoming`,
  `last_daily_run`, lines 114-131),
* `are_games_same` (lines 226-229),
* `fetch_games` result determination (lines 144-155),
* the core `run_check` procedure (lines 234-288), with its externally
  observable effects (persistence calls and channel sends) recorded as an
  ordered trace,
* the confirmation-grant map `pending_confirmations` (line 35, written at
  line 256, consumed by `confirm_slash`, lines 406-421),
* the scheduling guards of `daily_check` (lines 497-506) and the late-start
  catch-up in `on_ready` (lines 102-109),
* the state-file load at module import (lines 114-123).
-/

namespace Fred

/-- A game record as handled by the bot: a JSON object from which the core
logic only ever reads `title` (via `g.get("title")`, which yields `None`
when the key is absent).  A second field keeps the model honest about
equality being title-only. -/
structure Game where
  title : Option String
  description : Option String
deriving DecidableEq, Repr

/-- The persisted tracker state: the module globals `posted_games`,
`posted_upcoming` and `last_daily_run` (lines 117-123), which are also the
three fields of the JSON state file written by `save_posted` (lines
125-131). -/
structure TrackerState where
  posted_games : List Game
  posted_upcoming : List Game
  last_daily_run : Option String
deriving DecidableEq, Repr

/-- The set of titles occurring in a list of games:
`{g.get("title") for g in games}`. -/
def titleSet (games : List Game) : Finset (Option String) :=
  (games.map Game.title).toFinset

/-- `are_games_same` (lines 226-229): builds the two title sets and compares
them for equality. -/
def are_games_same (new_games old_games : List Game) : Bool :=
  decide (titleSet new_games = titleSet old_games)

/-- A parsed JSON response body, restricted to the shape the code reads: a
JSON object whose relevant keys (`"currentGames"`, `"nextGames"`) map to
arrays of game records.  An empty `entries` list is the empty object `{}`,
which is falsy in Python. -/
structure FetchBody where
  entries : List (String × List Game)
deriving DecidableEq, Repr

/-- `data.get(key, [])` on the parsed body (lines 251-252). -/
def FetchBody.get (d : FetchBody) (key : String) : List Game :=
  match d.entries.find? (fun p => p.1 == key) with
  | some p => p.2
  | none => []

/-- Python truthiness of the fetch result at line 238 (`if not data`): the
result is falsy when `fetch_games` returned `None` or when the parsed body
is the empty object. -/
def dataFalsy : Option FetchBody → Bool
  | none => true
  | some b => b.entries.isEmpty

/-- Outcome-determining inputs of one HTTP attempt in `fetch_games` (lines
144-155): either the request raised (network error / timeout / a body that
fails JSON parsing raises inside the `try`), or it produced a status code
and, when the body parsed, a parsed body. -/
inductive HttpResult where
  | exn
  | ok (status : Nat) (body : Option FetchBody)
deriving DecidableEq, Repr

/-- `fetch_games` (lines 144-155): any exception is caught and yields
`None`; a non-200 status yields `None`; otherwise the parsed body is
returned (a body that fails to parse raises, which the same handler turns
into `None`, modelled by `body = none`). -/
def fetch_games : HttpResult → Option FetchBody
  | HttpResult.exn => none
  | HttpResult.ok status body => if status ≠ 200 then none else body

/-- A cause of fetch failure per the taxonomy the code handles: a raised
exception (network error, timeout), a non-success status code, or a body
that fails to parse. -/
def fetchFails : HttpResult → Prop
  | HttpResult.exn => True
  | HttpResult.ok status body => status ≠ 200 ∨ body = none

instance : DecidablePred fetchFails := by
  intro h
  cases h with
  | exn => exact isTrue trivial
  | ok status body => exact inferInstanceAs (Decidable (status ≠ 200 ∨ body = none))

/-- The confirmation-grant map `pending_confirmations` (line 35): requester
mention → expiry time.  Time is measured in minutes, so the one-minute
window of line 256 is `now + 1`. -/
def Grants := String → Option Int

/-- The fixed confirmation window: `timedelta(minutes=1)` at line 256. -/
def confirm_window : Int := 1

/-- Issuing a grant: `pending_confirmations[ctx_mention] = now + 1 minute`
(line 256).  Dict assignment overwrites any prior entry for the key. -/
def grant (g : Grants) (requester : String) (now : Int) : Grants :=
  fun r => if r = requester then some (now + confirm_window) else g r

/-- Consuming a grant, as `confirm_slash` does (lines 409-412): look up the
requester's expiry; if present and `now <= expiry`, pop the entry and
succeed, otherwise leave the map untouched and fail.  (A `datetime` value is
always truthy, so `if expiry and now <= expiry` is exactly a `None` check
plus the comparison.) -/
def consume (g : Grants) (requester : String) (now : Int) : Bool × Grants :=
  match g requester with
  | some expiry =>
      if now ≤ expiry then
        (true, fun r => if r = requester then none else g r)
      else
        (false, g)
  | none => (false, g)

/-- Which return site of `run_check` produced the result (the code returns
a bare `False`/`True`; the branch identifies the return at lines 240, 249,
258 and 288, plus the case where `save_posted()` at line 267 raises and the
exception propagates out of `run_check`). -/
inductive Branch where
  | fetchFailed
  | noChannels
  | unchanged
  | announced
  | raised
deriving DecidableEq, Repr

/-- One externally observable side effect of a `run_check` call, in program
order: a `save_posted()` call recording the snapshot it wrote (line 267), the
"use /confirm" prompt (line 257), or a channel send of the current /
newly-appended-upcoming announcement payloads (lines 272-282). -/
inductive Effect where
  | save (st : TrackerState)
  | confirmPrompt (mention : String) (channel : Nat)
  | announceCurrent (channel : Nat) (payload : List Game)
  | announceUpcoming (channel : Nat) (payload : List Game)
deriving DecidableEq, Repr

/-- Whether an effect is an announcement send (the prompt of line 257 is a
reply to the requester, not an announcement). -/
def Effect.isAnnounce : Effect → Bool
  | Effect.announceCurrent _ _ => true
  | Effect.announceUpcoming _ _ => true
  | _ => false

/-- Whether an effect is a persistence call. -/
def Effect.isSave : Effect → Bool
  | Effect.save _ => true
  | _ => false

/-- Channel resolution (lines 242-245): an explicit interaction channel
wins; otherwise the discovered `free-games` channels are used. -/
def resolveChannels (interaction_channel : Option Nat) (discovered : List Nat) :
    List Nat :=
  match interaction_channel with
  | some c => [c]
  | none => discovered

/-- The announcement sends of lines 272-282: for each channel, the current
payload when non-empty, then the newly-appended-upcoming payload when
non-empty. -/
def announceEffects (channels : List Nat) (cur newUp : List Game) : List Effect :=
  channels.flatMap fun c =>
    (if cur.isEmpty then [] else [Effect.announceCurrent c cur]) ++
    (if newUp.isEmpty then [] else [Effect.announceUpcoming c newUp])

/-- The result of one `run_check` call: the Python return value (`none`
when `save_posted` raised and no value was returned), the return branch,
the module state and grant map after the call, the ordered effect trace,
and the announcement payloads built at lines 269-270 (`none` when that
point was never reached). -/
structure RunResult where
  retval : Option Bool
  branch : Branch
  state : TrackerState
  grants : Grants
  effects : List Effect
  announcedCurrent : Option (List Game)
  announcedUpcoming : Option (List Game)

/-- The newly-appended upcoming offers (line 262): the fetched next games
whose title is not among the titles of the already stored upcoming games.
Note the comprehension tests each candidate against the OLD stored list
only, not against earlier candidates of the same batch. -/
def new_upcoming_of (next_games posted_upcoming : List Game) : List Game :=
  next_games.filter
    (fun gm => !decide (gm.title ∈ posted_upcoming.map Game.title))

/-- The same-and-not-forced branch of `run_check` (lines 254-258): when a
mention and an explicit channel were supplied (both truthy — a mention
string is falsy only when empty), record a confirmation grant and send the
prompt; in every case return `True` with the state untouched. -/
def run_check_unchanged (ctx_mention : Option String)
    (interaction_channel : Option Nat) (now : Int) (s : TrackerState)
    (g : Grants) : RunResult :=
  match ctx_mention, interaction_channel with
  | some m, some c =>
      if m = "" then
        ⟨some true, Branch.unchanged, s, g, [], none, none⟩
      else
        ⟨some true, Branch.unchanged, s, grant g m now,
          [Effect.confirmPrompt m c], none, none⟩
  | _, _ => ⟨some true, Branch.unchanged, s, g, [], none, none⟩

/-- The changed-or-forced branch of `run_check` (lines 260-288): replace
the current set wholesale, append the new upcoming delta, stamp today's
date, persist, then send the two payloads to every channel.  When the
persistence write raises (`saveOk = false`), the exception propagates: the
globals are already mutated, but nothing further runs. -/
def run_check_changed (body : FetchBody) (channels : List Nat)
    (today : String) (saveOk : Bool) (s : TrackerState) (g : Grants) :
    RunResult :=
  let current_games := body.get "currentGames"
  let new_upcoming := new_upcoming_of (body.get "nextGames") s.posted_upcoming
  let s2 : TrackerState :=
    ⟨current_games, s.posted_upcoming ++ new_upcoming, some today⟩
  if saveOk then
    ⟨some true, Branch.announced, s2, g,
      Effect.save s2 :: announceEffects channels current_games new_upcoming,
      some current_games, some new_upcoming⟩
  else
    ⟨none, Branch.raised, s2, g, [], none, none⟩

/-- `run_check` (lines 234-288).  Inputs that the Python code obtains from
its environment are passed explicitly: the fetch result `data`, the
discovered channels, today's date string, the current time, and whether the
`save_posted()` file write succeeds. -/
def run_check (data : Option FetchBody) (discovered : List Nat)
    (ctx_mention : Option String) (force : Bool)
    (interaction_channel : Option Nat) (today : String) (now : Int)
    (saveOk : Bool) (s : TrackerState) (g : Grants) : RunResult :=
  if dataFalsy data then
    ⟨some false, Branch.fetchFailed, s, g, [], none, none⟩
  else
    let body := match data with
      | some b => b
      | none => ⟨[]⟩
    let channels := resolveChannels interaction_channel discovered
    if channels.isEmpty then
      ⟨some false, Branch.noChannels, s, g, [], none, none⟩
    else
      if are_games_same (body.get "currentGames") s.posted_games && !force then
        run_check_unchanged ctx_mention interaction_channel now s g
      else
        run_check_changed body channels today saveOk s g

/-- The fetched next-games list of a fetch result (line 252), `[]` when
the fetch failed. -/
def nextGamesOf : Option FetchBody → List Game
  | some b => b.get "nextGames"
  | none => []

/-- The guard of the daily scheduled task (line 502): the check body runs
iff the persisted last-run date differs from today's date string.
(`last_daily_run` is `None` or a string; `None != today_str` is `True`.) -/
def daily_check_runs (last_daily_run : Option String) (today_str : String) : Bool :=
  !(last_daily_run == some today_str)

/-- The guard of the late-start catch-up in `on_ready` (line 105): the
check runs iff the persisted last-run date differs from today AND the
current time is at or past the 17:01 target. -/
def on_ready_runs (last_daily_run : Option String) (today_str : String)
    (time_ge_target : Bool) : Bool :=
  !(last_daily_run == some today_str) && time_ge_target

/-- The possible relevant contents of the durable state file
`posted_games.json` as seen by the module-import load (lines 114-123):
absent, unreadable for another reason (e.g. a permission error on `open`),
a body that fails JSON parsing, a body that parses to a non-object JSON
value, or a JSON object with each of the three fields possibly absent. -/
inductive FileContent where
  | absent
  | unreadable
  | invalidJson
  | jsonNonDict
  | jsonDict (current : Option (List Game)) (upcoming : Option (List Game))
      (last : Option (Option String))
deriving DecidableEq

/-- The module-import load (lines 114-123).  `FileNotFoundError` and
`json.JSONDecodeError` are caught and yield the zero state; any other
exception — an `open` failure that is not file-not-found, or the
`AttributeError` raised by `data.get` when the parsed JSON is not an
object — propagates (`Except.error`).  A parsed object supplies each field
through `.get` with its default. -/
def load_posted : FileContent → Except Unit TrackerState
  | FileContent.absent => Except.ok ⟨[], [], none⟩
  | FileContent.unreadable => Except.error ()
  | FileContent.invalidJson => Except.ok ⟨[], [], none⟩
  | FileContent.jsonNonDict => Except.error ()
  | FileContent.jsonDict current upcoming last =>
      Except.ok ⟨current.getD [], upcoming.getD [], last.getD none⟩

/-- The zero-value tracker state. -/
def zeroState : TrackerState := ⟨[], [], none⟩

/-- The empty grant map, the initial value of `pending_confirmations`
(line 35). -/
def emptyGrants : Grants := fun _ => none

/-- A list of games has no two entries with the same title. -/
def titlesNodup (l : List Game) : Prop := (l.map Game.title).Nodup

instance : DecidablePred titlesNodup := fun l =>
  inferInstanceAs (Decidable (l.map Game.title).Nodup)

/-! Structural lemmas about the branches of `run_check`. -/

theorem run_check_falsy (data : Option FetchBody) (disc : List Nat)
    (cm : Option String) (force : Bool) (ic : Option Nat) (today : String)
    (now : Int) (saveOk : Bool) (s : TrackerState) (g : Grants)
    (h : dataFalsy data = true) :
    run_check data disc cm force ic today now saveOk s g =
      ⟨some false, Branch.fetchFailed, s, g, [], none, none⟩ := by
  simp [run_check, h]

theorem run_check_some_eq (body : FetchBody) (disc : List Nat)
    (cm : Option String) (force : Bool) (ic : Option Nat) (today : String)
    (now : Int) (saveOk : Bool) (s : TrackerState) (g : Grants)
    (hb : body.entries ≠ []) (hc : resolveChannels ic disc ≠ []) :
    run_check (some body) disc cm force ic today now saveOk s g =
      if are_games_same (body.get "currentGames") s.posted_games && !force then
        run_check_unchanged cm ic now s g
      else
        run_check_changed body (resolveChannels ic disc) today saveOk s g := by
  have h1 : dataFalsy (some body) = false := by
    simpa [dataFalsy, List.isEmpty_iff] using hb
  have h2 : (resolveChannels ic disc).isEmpty = false := by
    simpa [List.isEmpty_iff] using hc
  simp [run_check, h1, h2]

theorem run_check_unchanged_frame (cm : Option String) (ic : Option Nat)
    (now : Int) (s : TrackerState) (g : Grants) :
    (run_check_unchanged cm ic now s g).retval = some true ∧
    (run_check_unchanged cm ic now s g).branch = Branch.unchanged ∧
    (run_check_unchanged cm ic now s g).state = s ∧
    ∀ e ∈ (run_check_unchanged cm ic now s g).effects,
      e.isSave = false ∧ e.isAnnounce = false := by
  unfold run_check_unchanged
  match cm, ic with
  | some m, some c =>
    by_cases hm : m = "" <;>
      simp [hm, Effect.isSave, Effect.isAnnounce]
  | some m, none =>
    exact ⟨rfl, rfl, rfl, fun e he => absurd he (List.not_mem_nil e)⟩
  | none, some c =>
    exact ⟨rfl, rfl, rfl, fun e he => absurd he (List.not_mem_nil e)⟩
  | none, none =>
    exact ⟨rfl, rfl, rfl, fun e he => absurd he (List.not_mem_nil e)⟩

theorem run_check_unchanged_grants_of_none (ic : Option Nat) (now : Int)
    (s : TrackerState) (g : Grants) :
    (run_check_unchanged none ic now s g).grants = g := by
  unfold run_check_unchanged
  match ic with
  | some c => rfl
  | none => rfl

theorem mem_announceEffects (channels : List Nat) (cur newUp : List Game)
    (e : Effect) (he : e ∈ announceEffects channels cur newUp) :
    e.isAnnounce = true ∧ e.isSave = false ∧
    (∀ c pl, e = Effect.announceUpcoming c pl → pl = newUp) := by
  simp only [announceEffects, List.mem_flatMap, List.mem_append] at he
  obtain ⟨c, -, hmem | hmem⟩ := he
  · by_cases hcur : cur.isEmpty = true
    · rw [if_pos hcur] at hmem
      exact absurd hmem (List.not_mem_nil e)
    · rw [if_neg hcur, List.mem_singleton] at hmem
      subst hmem
      exact ⟨rfl, rfl, fun c2 pl2 h2 => by cases h2⟩
  · by_cases hup : newUp.isEmpty = true
    · rw [if_pos hup] at hmem
      exact absurd hmem (List.not_mem_nil e)
    · rw [if_neg hup, List.mem_singleton] at hmem
      subst hmem
      refine ⟨rfl, rfl, fun c2 pl2 h2 => ?_⟩
      cases h2
      rfl

theorem run_check_changed_state (body : FetchBody) (channels : List Nat)
    (today : String) (saveOk : Bool) (s : TrackerState) (g : Grants) :
    (run_check_changed body channels today saveOk s g).state =
      ⟨body.get "currentGames",
        s.posted_upcoming ++ new_upcoming_of (body.get "nextGames") s.posted_upcoming,
        some today⟩ := by
  unfold run_check_changed
  cases saveOk <;> rfl

theorem run_check_changed_grants (body : FetchBody) (channels : List Nat)
    (today : String) (saveOk : Bool) (s : TrackerState) (g : Grants) :
    (run_check_changed body channels today saveOk s g).grants = g := by
  unfold run_check_changed
  cases saveOk <;> rfl

theorem run_check_changed_true (body : FetchBody) (channels : List Nat)
    (today : String) (s : TrackerState) (g : Grants) :
    run_check_changed body channels today true s g =
      ⟨some true, Branch.announced,
        ⟨body.get "currentGames",
          s.posted_upcoming ++
            new_upcoming_of (body.get "nextGames") s.posted_upcoming,
          some today⟩, g,
        Effect.save
            ⟨body.get "currentGames",
              s.posted_upcoming ++
                new_upcoming_of (body.get "nextGames") s.posted_upcoming,
              some today⟩ ::
          announceEffects channels (body.get "currentGames")
            (new_upcoming_of (body.get "nextGames") s.posted_upcoming),
        some (body.get "currentGames"),
        some (new_upcoming_of (body.get "nextGames") s.posted_upcoming)⟩ := rfl

theorem run_check_changed_false (body : FetchBody) (channels : List Nat)
    (today : String) (s : TrackerState) (g : Grants) :
    run_check_changed body channels today false s g =
      ⟨none, Branch.raised,
        ⟨body.get "currentGames",
          s.posted_upcoming ++
            new_upcoming_of (body.get "nextGames") s.posted_upcoming,
          some today⟩, g, [], none, none⟩ := rfl

theorem run_check_shape (data : Option FetchBody) (disc : List Nat)
    (cm : Option String) (force : Bool) (ic : Option Nat) (today : String)
    (now : Int) (saveOk : Bool) (s : TrackerState) (g : Grants) :
    run_check data disc cm force ic today now saveOk s g =
        ⟨some false, Branch.fetchFailed, s, g, [], none, none⟩ ∨
    run_check data disc cm force ic today now saveOk s g =
        ⟨some false, Branch.noChannels, s, g, [], none, none⟩ ∨
    (∃ body, data = some body ∧
      run_check data disc cm force ic today now saveOk s g =
        run_check_unchanged cm ic now s g) ∨
    (∃ body, data = some body ∧
      run_check data disc cm force ic today now saveOk s g =
        run_check_changed body (resolveChannels ic disc) today saveOk s g) := by
  by_cases h1 : dataFalsy data = true
  · exact Or.inl (run_check_falsy data disc cm force ic today now saveOk s g h1)
  · cases data with
    | none => exact absurd rfl h1
    | some body =>
      have hb : body.entries ≠ [] := by
        intro hbody
        exact h1 (by simp [dataFalsy, hbody])
      by_cases h2 : resolveChannels ic disc = []
      · refine Or.inr (Or.inl ?_)
        have h1f : dataFalsy (some body) = false := by
          simpa [dataFalsy, List.isEmpty_iff] using hb
        have h2t : (resolveChannels ic disc).isEmpty = true := by
          simp [List.isEmpty_iff, h2]
        simp [run_check, h1f, h2t]
      · rw [run_check_some_eq body disc cm force ic today now saveOk s g hb h2]
        by_cases h3 :
            (are_games_same (body.get "currentGames") s.posted_games && !force) = true
        · rw [if_pos h3]
          exact Or.inr (Or.inr (Or.inl ⟨body, rfl, rfl⟩))
        · rw [if_neg h3]
          exact Or.inr (Or.inr (Or.inr ⟨body, rfl, rfl⟩))

theorem run_check_unchanged_of_same (body : FetchBody) (disc : List Nat)
    (cm : Option String) (ic : Option Nat) (today : String) (now : Int)
    (saveOk : Bool) (s : TrackerState) (g : Grants)
    (hb : body.entries ≠ []) (hc : resolveChannels ic disc ≠ [])
    (h : titleSet (body.get "currentGames") = titleSet s.posted_games) :
    run_check (some body) disc cm false ic today now saveOk s g =
      run_check_unchanged cm ic now s g := by
  rw [run_check_some_eq body disc cm false ic today now saveOk s g hb hc]
  have hsame : are_games_same (body.get "currentGames") s.posted_games = true :=
    decide_eq_true h
  rw [if_pos]
  simp [hsame]

theorem fetch_games_none_of_fails (http : HttpResult) (h : fetchFails http) :
    fetch_games http = none := by
  cases http with
  | exn => rfl
  | ok status body =>
    rcases h with h | h
    · simp [fetch_games, h]
    · subst h
      simp [fetch_games]

/-! Helper lemmas about the confirmation-grant map. -/

theorem consume_none (g : Grants) (r : String) (now : Int) (h : g r = none) :
    consume g r now = (false, g) := by
  unfold consume
  rw [h]

theorem consume_of_some (g : Grants) (r : String) (now e : Int)
    (h : g r = some e) :
    consume g r now =
      if now ≤ e then (true, fun r2 => if r2 = r then none else g r2)
      else (false, g) := by
  unfold consume
  rw [h]

theorem consume_true_iff (g : Grants) (r : String) (now : Int) :
    (consume g r now).1 = true ↔ ∃ e, g r = some e ∧ now ≤ e := by
  cases hgr : g r with
  | none => simp [consume_none g r now hgr, hgr]
  | some e =>
    rw [consume_of_some g r now e hgr]
    by_cases hle : now ≤ e
    · simp [hle, hgr]
    · simp [hle, hgr]

theorem consume_true_map (g : Grants) (r : String) (now : Int)
    (h : (consume g r now).1 = true) :
    (consume g r now).2 r = none ∧
      ∀ r2, r2 ≠ r → (consume g r now).2 r2 = g r2 := by
  cases hgr : g r with
  | none =>
    rw [consume_none g r now hgr] at h
    simp at h
  | some e =>
    rw [consume_of_some g r now e hgr] at h ⊢
    by_cases hle : now ≤ e
    · rw [if_pos hle]
      exact ⟨by simp, fun r2 hr2 => by simp [hr2]⟩
    · rw [if_neg hle] at h
      simp at h

theorem consume_false_map (g : Grants) (r : String) (now : Int)
    (h : (consume g r now).1 = false) :
    (consume g r now).2 = g := by
  cases hgr : g r with
  | none => rw [consume_none g r now hgr]
  | some e =>
    rw [consume_of_some g r now e hgr] at h ⊢
    by_cases hle : now ≤ e
    · rw [if_pos hle] at h
      simp at h
    · rw [if_neg hle]

/-! Helper lemmas about upcoming-offer accumulation. -/

theorem new_upcoming_of_sub (next posted : List Game) :
    ∀ gm ∈ new_upcoming_of next posted,
      gm ∈ next ∧ gm.title ∉ posted.map Game.title := by
  intro gm hgm
  rw [new_upcoming_of, List.mem_filter] at hgm
  refine ⟨hgm.1, ?_⟩
  have := hgm.2
  simp only [Bool.not_eq_true'] at this
  exact of_decide_eq_false this

theorem new_upcoming_of_nil (next posted : List Game)
    (h : ∀ gm ∈ next, gm.title ∈ posted.map Game.title) :
    new_upcoming_of next posted = [] := by
  unfold new_upcoming_of
  rw [List.filter_eq_nil_iff]
  intro gm hgm
  simp [h gm hgm]

theorem titlesNodup_append_new (posted next : List Game)
    (h1 : titlesNodup posted) (h2 : titlesNodup next) :
    titlesNodup (posted ++ new_upcoming_of next posted) := by
  unfold titlesNodup at h1 h2 ⊢
  rw [List.map_append]
  refine List.Nodup.append h1 ?_ ?_
  · have hs : List.Sublist (new_upcoming_of next posted) next :=
      List.filter_sublist next
    exact h2.sublist (hs.map Game.title)
  · intro t ht1 ht2
    rw [List.mem_map] at ht2
    obtain ⟨gm, hgm, rfl⟩ := ht2
    exact (new_upcoming_of_sub next posted gm hgm).2 ht1

theorem run_check_posted_upcoming (data : Option FetchBody) (disc : List Nat)
    (cm : Option String) (force : Bool) (ic : Option Nat) (today : String)
    (now : Int) (saveOk : Bool) (s : TrackerState) (g : Grants) :
    (run_check data disc cm force ic today now saveOk s g).state.posted_upcoming
        = s.posted_upcoming ∨
    (run_check data disc cm force ic today now saveOk s g).state.posted_upcoming
        = s.posted_upcoming ++
            new_upcoming_of (nextGamesOf data) s.posted_upcoming := by
  rcases run_check_shape data disc cm force ic today now saveOk s g with
    h1 | h1 | ⟨body, hd, h1⟩ | ⟨body, hd, h1⟩ <;> rw [h1]
  · exact Or.inl rfl
  · exact Or.inl rfl
  · exact Or.inl
      (by rw [(run_check_unchanged_frame cm ic now s g).2.2.1])
  · subst hd
    rw [run_check_changed_state]
    exact Or.inr rfl

theorem run_check_announced_state (data : Option FetchBody) (disc : List Nat)
    (cm : Option String) (force : Bool) (ic : Option Nat) (today : String)
    (now : Int) (saveOk : Bool) (s : TrackerState) (g : Grants)
    (h : (run_check data disc cm force ic today now saveOk s g).branch =
      Branch.announced) :
    ∃ body, data = some body ∧
      run_check data disc cm force ic today now saveOk s g =
        run_check_changed body (resolveChannels ic disc) today true s g ∧
      saveOk = true := by
  rcases run_check_shape data disc cm force ic today now saveOk s g with
    h1 | h1 | ⟨body, hd, h1⟩ | ⟨body, hd, h1⟩
  · rw [h1] at h
    exact Branch.noConfusion h
  · rw [h1] at h
    exact Branch.noConfusion h
  · rw [h1, (run_check_unchanged_frame cm ic now s g).2.1] at h
    exact Branch.noConfusion h
  · cases saveOk with
    | false =>
      rw [h1, run_check_changed_false] at h
      exact Branch.noConfusion h
    | true => exact ⟨body, hd, h1, rfl⟩

/-! Claim theorems. -/

/-- C7: `are_games_same a b` is true exactly when the set of titles
occurring in `a` equals the set of titles occurring in `b` — every other
field, duplicate counts and ordering are ignored — and it is therefore
symmetric and reflexive. -/
theorem are_games_same_spec :
    (∀ a b, are_games_same a b = true ↔ titleSet a = titleSet b) ∧
    (∀ a b, a.map Game.title = b.map Game.title → are_games_same a b = true) ∧
    (∀ a b, are_games_same a b = are_games_same b a) ∧
    (∀ a, are_games_same a a = true) := by
  refine ⟨fun a b => ?_, fun a b h => ?_, fun a b => ?_, fun a => ?_⟩
  · simp [are_games_same]
  · simp [are_games_same, titleSet, h]
  · simp only [are_games_same]
    exact decide_eq_decide.mpr ⟨Eq.symm, Eq.symm⟩
  · simp [are_games_same]

/-- Witness for C7: two lists whose games agree on titles but differ on the
description field compare as the same. -/
theorem are_games_same_spec_witness :
    are_games_same [⟨some "A", none⟩] [⟨some "A", some "desc"⟩] = true :=
  are_games_same_spec.2.1 [⟨some "A", none⟩] [⟨some "A", some "desc"⟩] rfl

/-- C9: `consume` returns true and deletes the entry exactly when an
unexpired grant for the requester exists at `now`; otherwise it returns
false and leaves the map unchanged; a consumed grant cannot be consumed a
second time; and `grant` keeps at most one outstanding entry per requester,
overwriting any prior one while touching no other requester. -/
theorem consume_grant_spec :
    (∀ g r now, (consume g r now).1 = true ↔ ∃ e, g r = some e ∧ now ≤ e) ∧
    (∀ g r now, (consume g r now).1 = true →
      (consume g r now).2 r = none ∧
        ∀ r2, r2 ≠ r → (consume g r now).2 r2 = g r2) ∧
    (∀ g r now, (consume g r now).1 = false → (consume g r now).2 = g) ∧
    (∀ g r now now2, (consume g r now).1 = true →
      (consume (consume g r now).2 r now2).1 = false) ∧
    (∀ g r now, grant g r now r = some (now + confirm_window) ∧
      ∀ r2, r2 ≠ r → grant g r now r2 = g r2) := by
  refine ⟨consume_true_iff, consume_true_map, consume_false_map, ?_, ?_⟩
  · intro g r now now2 h
    rw [consume_none _ r now2 (consume_true_map g r now h).1]
  · intro g r now
    constructor
    · unfold grant
      simp
    · intro r2 hr2
      unfold grant
      simp [hr2]

/-- Witness for C9: a grant issued at time 0 is consumed successfully at
time 1 (inside the one-minute window), and a second consume of the same
grant fails. -/
theorem consume_grant_spec_witness :
    (consume (grant emptyGrants "u" 0) "u" 1).1 = true ∧
    (consume (consume (grant emptyGrants "u" 0) "u" 1).2 "u" 1).1 = false := by
  have h1 : (consume (grant emptyGrants "u" 0) "u" 1).1 = true :=
    (consume_grant_spec.1 (grant emptyGrants "u" 0) "u" 1).mpr
      ⟨0 + confirm_window, rfl, by decide⟩
  exact ⟨h1, consume_grant_spec.2.2.2.1 (grant emptyGrants "u" 0) "u" 1 1 h1⟩

/-- C6 counterexample: a readable state file whose body is valid JSON but
not a JSON object (so `data.get` raises `AttributeError`, which the
`except (FileNotFoundError, json.JSONDecodeError)` handler does not catch)
makes the load raise instead of yielding the zero-value state. -/
theorem load_posted_nonDict_raises :
    load_posted FileContent.jsonNonDict = Except.error () := rfl

/-- C6 amended: the load returns the zero-value state for an absent file or
a body that fails JSON parsing, and a field-defaulted state for any JSON
object body; but an unreadable file (an `open` error other than
file-not-found) or a body parsing to a non-object JSON value raises an
uncaught exception. -/
theorem load_posted_total_cases :
    load_posted FileContent.absent = Except.ok zeroState ∧
    load_posted FileContent.invalidJson = Except.ok zeroState ∧
    (∀ c u l, load_posted (FileContent.jsonDict c u l) =
      Except.ok ⟨c.getD [], u.getD [], l.getD none⟩) ∧
    load_posted FileContent.unreadable = Except.error () ∧
    load_posted FileContent.jsonNonDict = Except.error () :=
  ⟨rfl, rfl, fun _ _ _ => rfl, rfl, rfl⟩

/-- C4: when the fetch fails — a raised exception (network error or
timeout), a non-success status code, or a malformed body — `run_check`
takes the fetch-failed return, the stored state and grant map are exactly
as before, and no effect (no save, no send) is performed. -/
theorem fetch_failure_frame :
    ∀ http disc cm force ic today now saveOk s g,
      fetchFails http →
      run_check (fetch_games http) disc cm force ic today now saveOk s g =
        ⟨some false, Branch.fetchFailed, s, g, [], none, none⟩ := by
  intro http disc cm force ic today now saveOk s g h
  rw [fetch_games_none_of_fails http h]
  exact run_check_falsy none disc cm force ic today now saveOk s g rfl

/-- Witness for C4 at a concrete timed-out fetch. -/
theorem fetch_failure_frame_witness :
    run_check (fetch_games HttpResult.exn) [1] none false none "2026-10-12" 0
        true zeroState emptyGrants =
      ⟨some false, Branch.fetchFailed, zeroState, emptyGrants, [], none, none⟩ :=
  fetch_failure_frame HttpResult.exn [1] none false none "2026-10-12" 0 true
    zeroState emptyGrants trivial

/-- C10: a successful response whose parsed body is the empty object is
treated exactly like a fetch failure — `run_check` returns the failure
result with the state untouched and never reaches the comparison — while
any non-empty body with a resolvable channel does get past the fetch and
channel checks to the comparison step. -/
theorem falsy_body_fetch_failure :
    (∀ disc cm force ic today now saveOk s g,
      run_check (some ⟨[]⟩) disc cm force ic today now saveOk s g =
        ⟨some false, Branch.fetchFailed, s, g, [], none, none⟩) ∧
    (∀ body disc cm force ic today now saveOk s g,
      body.entries ≠ [] → resolveChannels ic disc ≠ [] →
      (run_check (some body) disc cm force ic today now saveOk s g).branch ≠
          Branch.fetchFailed ∧
      (run_check (some body) disc cm force ic today now saveOk s g).branch ≠
          Branch.noChannels) := by
  constructor
  · intro disc cm force ic today now saveOk s g
    exact run_check_falsy (some ⟨[]⟩) disc cm force ic today now saveOk s g rfl
  · intro body disc cm force ic today now saveOk s g hb hc
    rw [run_check_some_eq body disc cm force ic today now saveOk s g hb hc]
    by_cases h3 :
        (are_games_same (body.get "currentGames") s.posted_games && !force) = true
    · rw [if_pos h3, (run_check_unchanged_frame cm ic now s g).2.1]
      exact ⟨fun h => Branch.noConfusion h, fun h => Branch.noConfusion h⟩
    · rw [if_neg h3]
      cases saveOk with
      | false =>
        rw [run_check_changed_false]
        exact ⟨fun h => Branch.noConfusion h, fun h => Branch.noConfusion h⟩
      | true =>
        rw [run_check_changed_true]
        exact ⟨fun h => Branch.noConfusion h, fun h => Branch.noConfusion h⟩

/-- Witness for C10: a non-empty body whose two offer lists are both empty
is a legitimate result that reaches the comparison. -/
theorem falsy_body_fetch_failure_witness :
    (run_check (some ⟨[("currentGames", []), ("nextGames", [])]⟩) [1] none false
          none "2026-10-12" 0 true zeroState emptyGrants).branch ≠
        Branch.fetchFailed ∧
    (run_check (some ⟨[("currentGames", []), ("nextGames", [])]⟩) [1] none false
          none "2026-10-12" 0 true zeroState emptyGrants).branch ≠
        Branch.noChannels :=
  falsy_body_fetch_failure.2 ⟨[("currentGames", []), ("nextGames", [])]⟩ [1]
    none false none "2026-10-12" 0 true zeroState emptyGrants (by decide)
    (by decide)

/-- C1: when the fetched current titles equal the stored current titles and
force is off, `run_check` takes the unchanged return: it returns True,
performs no save and no announcement send, and leaves the tracker state
untouched; consequently a second call with the same fetch result right
after any first call finds no change and mutates nothing further. -/
theorem unchanged_noop_and_idempotent :
    (∀ body disc cm ic today now saveOk s g,
      body.entries ≠ [] → resolveChannels ic disc ≠ [] →
      titleSet (body.get "currentGames") = titleSet s.posted_games →
      (run_check (some body) disc cm false ic today now saveOk s g).retval =
          some true ∧
      (run_check (some body) disc cm false ic today now saveOk s g).branch =
          Branch.unchanged ∧
      (run_check (some body) disc cm false ic today now saveOk s g).state = s ∧
      ∀ e ∈ (run_check (some body) disc cm false ic today now saveOk s g).effects,
        e.isSave = false ∧ e.isAnnounce = false) ∧
    (∀ body disc cm ic today now saveOk s g,
      body.entries ≠ [] → resolveChannels ic disc ≠ [] →
      (run_check (some body) disc cm false ic today now saveOk
          (run_check (some body) disc cm false ic today now saveOk s g).state
          (run_check (some body) disc cm false ic today now saveOk s g).grants).branch =
          Branch.unchanged ∧
      (run_check (some body) disc cm false ic today now saveOk
          (run_check (some body) disc cm false ic today now saveOk s g).state
          (run_check (some body) disc cm false ic today now saveOk s g).grants).state =
        (run_check (some body) disc cm false ic today now saveOk s g).state ∧
      ∀ e ∈ (run_check (some body) disc cm false ic today now saveOk
          (run_check (some body) disc cm false ic today now saveOk s g).state
          (run_check (some body) disc cm false ic today now saveOk s g).grants).effects,
        e.isSave = false ∧ e.isAnnounce = false) := by
  constructor
  · intro body disc cm ic today now saveOk s g hb hc hsame
    rw [run_check_unchanged_of_same body disc cm ic today now saveOk s g hb hc hsame]
    exact run_check_unchanged_frame cm ic now s g
  · intro body disc cm ic today now saveOk s g hb hc
    by_cases hs : titleSet (body.get "currentGames") = titleSet s.posted_games
    · rw [run_check_unchanged_of_same body disc cm ic today now saveOk s g hb hc hs,
        (run_check_unchanged_frame cm ic now s g).2.2.1,
        run_check_unchanged_of_same body disc cm ic today now saveOk s
          (run_check_unchanged cm ic now s g).grants hb hc hs]
      exact ⟨(run_check_unchanged_frame cm ic now s _).2.1,
        (run_check_unchanged_frame cm ic now s _).2.2.1,
        (run_check_unchanged_frame cm ic now s _).2.2.2⟩
    · have hcond :
          (are_games_same (body.get "currentGames") s.posted_games && !false) =
            false := by
        simp only [Bool.not_false, Bool.and_true, are_games_same]
        exact decide_eq_false hs
      have hr1 : run_check (some body) disc cm false ic today now saveOk s g =
          run_check_changed body (resolveChannels ic disc) today saveOk s g := by
        rw [run_check_some_eq body disc cm false ic today now saveOk s g hb hc,
          if_neg (by rw [hcond]; exact Bool.false_ne_true)]
      rw [hr1, run_check_changed_state, run_check_changed_grants,
        run_check_unchanged_of_same body disc cm ic today now saveOk _ g hb hc rfl]
      exact ⟨(run_check_unchanged_frame cm ic now _ g).2.1,
        (run_check_unchanged_frame cm ic now _ g).2.2.1,
        (run_check_unchanged_frame cm ic now _ g).2.2.2⟩

/-- Witness for C1 at a concrete stored state and matching fetch result. -/
theorem unchanged_noop_witness :
    (run_check (some ⟨[("currentGames", [⟨some "A", none⟩])]⟩) [1] none false
        none "2026-10-12" 0 true ⟨[⟨some "A", none⟩], [], none⟩
        emptyGrants).state = ⟨[⟨some "A", none⟩], [], none⟩ :=
  (unchanged_noop_and_idempotent.1 ⟨[("currentGames", [⟨some "A", none⟩])]⟩ [1]
    none none "2026-10-12" 0 true ⟨[⟨some "A", none⟩], [], none⟩ emptyGrants
    (by decide) (by decide) (by decide)).2.2.1

/-- C2 counterexample: a fetched next-games list that itself contains two
entries with the same title gets appended wholesale (each candidate is
checked only against the previously stored titles), so the stored upcoming
list ends with a duplicated title. -/
theorem upcoming_dup_counterexample :
    (run_check (some ⟨[("currentGames", [⟨some "A", none⟩]),
          ("nextGames", [⟨some "C", none⟩, ⟨some "C", none⟩])]⟩) [1] none false
        none "2026-10-12" 0 true ⟨[], [], none⟩
        emptyGrants).state.posted_upcoming =
      [⟨some "C", none⟩, ⟨some "C", none⟩] ∧
    ¬ titlesNodup (run_check (some ⟨[("currentGames", [⟨some "A", none⟩]),
          ("nextGames", [⟨some "C", none⟩, ⟨some "C", none⟩])]⟩) [1] none false
        none "2026-10-12" 0 true ⟨[], [], none⟩
        emptyGrants).state.posted_upcoming :=
  ⟨by decide, by decide⟩

/-- C2 amended: provided the stored upcoming titles are duplicate-free AND
the fetched next-games list has no internal duplicate title, every run
preserves title-uniqueness of the stored upcoming list; and a fetched
upcoming offer whose title is already stored is never appended — if all
fetched next titles are already stored, the stored list is unchanged in
length and content. -/
theorem upcoming_dedup_spec :
    (∀ data disc cm force ic today now saveOk s g,
      titlesNodup s.posted_upcoming → titlesNodup (nextGamesOf data) →
      titlesNodup
        (run_check data disc cm force ic today now saveOk s g).state.posted_upcoming) ∧
    (∀ data disc cm force ic today now saveOk s g,
      (∀ gm ∈ nextGamesOf data, gm.title ∈ s.posted_upcoming.map Game.title) →
      (run_check data disc cm force ic today now saveOk s g).state.posted_upcoming =
        s.posted_upcoming) := by
  constructor
  · intro data disc cm force ic today now saveOk s g h1 h2
    rcases run_check_posted_upcoming data disc cm force ic today now saveOk s g
      with h | h
    · rw [h]
      exact h1
    · rw [h]
      exact titlesNodup_append_new s.posted_upcoming (nextGamesOf data) h1 h2
  · intro data disc cm force ic today now saveOk s g h
    rcases run_check_posted_upcoming data disc cm force ic today now saveOk s g
      with hh | hh
    · exact hh
    · rw [hh, new_upcoming_of_nil (nextGamesOf data) s.posted_upcoming h,
        List.append_nil]

/-- Witness for C2 amended: a fetched upcoming offer whose title is already
stored leaves the stored upcoming list unchanged. -/
theorem upcoming_dedup_witness :
    (run_check (some ⟨[("nextGames", [⟨some "B", none⟩])]⟩) [1] none false none
        "2026-10-12" 0 true ⟨[⟨some "A", none⟩], [⟨some "B", none⟩], none⟩
        emptyGrants).state.posted_upcoming = [⟨some "B", none⟩] :=
  upcoming_dedup_spec.2 (some ⟨[("nextGames", [⟨some "B", none⟩])]⟩) [1] none
    false none "2026-10-12" 0 true
    ⟨[⟨some "A", none⟩], [⟨some "B", none⟩], none⟩ emptyGrants (by decide)

/-- C3: every announcement send is preceded in the effect trace by the save
of the final (mutated) state, which is the first effect of such a run; a
failed persistence makes every announcement unreachable; and only the
changed-path runs (announced, or raised during the save) mutate state, the
announced ones recording their final state in the trace. -/
theorem persist_before_announce :
    ∀ data disc cm force ic today now saveOk s g,
      ((∃ e ∈ (run_check data disc cm force ic today now saveOk s g).effects,
          e.isAnnounce = true) →
        ∃ l, (run_check data disc cm force ic today now saveOk s g).effects =
            Effect.save (run_check data disc cm force ic today now saveOk s g).state
              :: l ∧
          ∀ e ∈ l, e.isSave = false) ∧
      (saveOk = false →
        ∀ e ∈ (run_check data disc cm force ic today now saveOk s g).effects,
          e.isAnnounce = false) ∧
      ((run_check data disc cm force ic today now saveOk s g).state ≠ s →
        (run_check data disc cm force ic today now saveOk s g).branch =
            Branch.announced ∨
        (run_check data disc cm force ic today now saveOk s g).branch =
            Branch.raised) ∧
      ((run_check data disc cm force ic today now saveOk s g).branch =
          Branch.announced →
        Effect.save (run_check data disc cm force ic today now saveOk s g).state ∈
          (run_check data disc cm force ic today now saveOk s g).effects) := by
  intro data disc cm force ic today now saveOk s g
  rcases run_check_shape data disc cm force ic today now saveOk s g with
    h1 | h1 | ⟨body, hd, h1⟩ | ⟨body, hd, h1⟩ <;> rw [h1]
  · refine ⟨?_, ?_, ?_, ?_⟩
    · rintro ⟨e, he, -⟩
      exact absurd he (List.not_mem_nil e)
    · intro _ e he
      exact absurd he (List.not_mem_nil e)
    · intro hne
      exact absurd rfl hne
    · intro hbr
      exact Branch.noConfusion hbr
  · refine ⟨?_, ?_, ?_, ?_⟩
    · rintro ⟨e, he, -⟩
      exact absurd he (List.not_mem_nil e)
    · intro _ e he
      exact absurd he (List.not_mem_nil e)
    · intro hne
      exact absurd rfl hne
    · intro hbr
      exact Branch.noConfusion hbr
  · have hf := run_check_unchanged_frame cm ic now s g
    refine ⟨?_, ?_, ?_, ?_⟩
    · rintro ⟨e, he, ha⟩
      rw [(hf.2.2.2 e he).2] at ha
      exact absurd ha Bool.false_ne_true
    · intro _ e he
      exact (hf.2.2.2 e he).2
    · intro hne
      exact absurd hf.2.2.1 hne
    · intro hbr
      rw [hf.2.1] at hbr
      exact Branch.noConfusion hbr
  · cases saveOk with
    | false =>
      rw [run_check_changed_false]
      refine ⟨?_, ?_, ?_, ?_⟩
      · rintro ⟨e, he, -⟩
        exact absurd he (List.not_mem_nil e)
      · intro _ e he
        exact absurd he (List.not_mem_nil e)
      · intro _
        exact Or.inr rfl
      · intro hbr
        exact Branch.noConfusion hbr
    | true =>
      rw [run_check_changed_true]
      refine ⟨?_, ?_, ?_, ?_⟩
      · intro _
        refine ⟨announceEffects (resolveChannels ic disc) (body.get "currentGames")
            (new_upcoming_of (body.get "nextGames") s.posted_upcoming), rfl, ?_⟩
        intro e he
        exact (mem_announceEffects _ _ _ e he).2.1
      · intro hfalse
        exact Bool.noConfusion hfalse
      · intro _
        exact Or.inl rfl
      · intro _
        exact List.mem_cons_self _ _

/-- Witness for C3: a concrete announcing run persists first (the trace
starts with the save of the final state) and its state change is of the
announced kind. -/
theorem persist_before_announce_witness :
    (∃ l, (run_check (some ⟨[("currentGames", [⟨some "A", none⟩])]⟩) [1] none
          false none "2026-10-12" 0 true ⟨[], [], none⟩ emptyGrants).effects =
        Effect.save (run_check (some ⟨[("currentGames", [⟨some "A", none⟩])]⟩)
            [1] none false none "2026-10-12" 0 true ⟨[], [], none⟩
            emptyGrants).state :: l ∧
        ∀ e ∈ l, e.isSave = false) ∧
    ((run_check (some ⟨[("currentGames", [⟨some "A", none⟩])]⟩) [1] none false
          none "2026-10-12" 0 true ⟨[], [], none⟩ emptyGrants).branch =
        Branch.announced ∨
      (run_check (some ⟨[("currentGames", [⟨some "A", none⟩])]⟩) [1] none false
          none "2026-10-12" 0 true ⟨[], [], none⟩ emptyGrants).branch =
        Branch.raised) :=
  ⟨(persist_before_announce (some ⟨[("currentGames", [⟨some "A", none⟩])]⟩) [1]
      none false none "2026-10-12" 0 true ⟨[], [], none⟩ emptyGrants).1
    ⟨Effect.announceCurrent 1 [⟨some "A", none⟩], by decide, by decide⟩,
   (persist_before_announce (some ⟨[("currentGames", [⟨some "A", none⟩])]⟩) [1]
      none false none "2026-10-12" 0 true ⟨[], [], none⟩ emptyGrants).2.2.1
    (by decide)⟩

/-- C5 counterexample: a scheduled run that finds no change completes
successfully (returns True) yet records nothing, so both the 24-hour-loop
guard and the startup catch-up guard still fire for the very same date
afterwards — the date is not recorded by every successful daily
reconciliation. -/
theorem daily_guard_counterexample :
    daily_check_runs none "2026-10-12" = true ∧
    (run_check (some ⟨[("currentGames", [⟨some "A", none⟩])]⟩) [1] none false
        none "2026-10-12" 0 true ⟨[⟨some "A", none⟩], [], none⟩
        emptyGrants).retval = some true ∧
    (run_check (some ⟨[("currentGames", [⟨some "A", none⟩])]⟩) [1] none false
        none "2026-10-12" 0 true ⟨[⟨some "A", none⟩], [], none⟩
        emptyGrants).state.last_daily_run = none ∧
    on_ready_runs (run_check (some ⟨[("currentGames", [⟨some "A", none⟩])]⟩) [1]
        none false none "2026-10-12" 0 true ⟨[⟨some "A", none⟩], [], none⟩
        emptyGrants).state.last_daily_run "2026-10-12" true = true ∧
    daily_check_runs (run_check (some ⟨[("currentGames", [⟨some "A", none⟩])]⟩)
        [1] none false none "2026-10-12" 0 true ⟨[⟨some "A", none⟩], [], none⟩
        emptyGrants).state.last_daily_run "2026-10-12" = true :=
  ⟨by decide, by decide, by decide, by decide, by decide⟩

/-- C5 amended: both scheduler guards run the check exactly when the
persisted last-run date differs from today (and, for the catch-up, the
target time has passed); a reconciliation records today's date exactly when
it takes the changed-or-forced path and persists, after which both guards
are suppressed for that date — an unchanged run records nothing and does
not suppress a later same-date fire. -/
theorem daily_guard_spec :
    (∀ last today, daily_check_runs last today = true ↔ last ≠ some today) ∧
    (∀ last today tge, on_ready_runs last today tge = true ↔
      (last ≠ some today ∧ tge = true)) ∧
    (∀ data disc cm force ic today now saveOk s g,
      (run_check data disc cm force ic today now saveOk s g).branch =
          Branch.announced →
      (run_check data disc cm force ic today now saveOk s g).state.last_daily_run =
          some today ∧
      daily_check_runs
          (run_check data disc cm force ic today now saveOk s g).state.last_daily_run
          today = false ∧
      ∀ tge, on_ready_runs
          (run_check data disc cm force ic today now saveOk s g).state.last_daily_run
          today tge = false) := by
  refine ⟨?_, ?_, ?_⟩
  · intro last today
    simp [daily_check_runs]
  · intro last today tge
    simp [on_ready_runs]
  · intro data disc cm force ic today now saveOk s g h
    obtain ⟨body, hd, heq, hsave⟩ :=
      run_check_announced_state data disc cm force ic today now saveOk s g h
    rw [heq, run_check_changed_state]
    exact ⟨rfl, by simp [daily_check_runs], fun tge => by simp [on_ready_runs]⟩

/-- Witness for C5 amended: a concrete announcing run records today's
date. -/
theorem daily_guard_spec_witness :
    (run_check (some ⟨[("currentGames", [⟨some "A", none⟩])]⟩) [1] none false
        none "2026-10-12" 0 true ⟨[], [], none⟩
        emptyGrants).state.last_daily_run = some "2026-10-12" :=
  (daily_guard_spec.2.2 (some ⟨[("currentGames", [⟨some "A", none⟩])]⟩) [1]
    none false none "2026-10-12" 0 true ⟨[], [], none⟩ emptyGrants
    (by decide)).1

/-- C8: a run that announces carries as its upcoming payload exactly the
fetched next games whose title was not already stored — never previously
accumulated entries — the stored upcoming list grows by exactly those, and
every upcoming announcement sent on any channel carries exactly that
payload. -/
theorem announce_payload_spec :
    ∀ body disc cm force ic today now saveOk s g,
      (run_check (some body) disc cm force ic today now saveOk s g).branch =
          Branch.announced →
      ∃ p,
        (run_check (some body) disc cm force ic today now saveOk s g).announcedUpcoming =
            some p ∧
        (∀ x, x ∈ p ↔
          x ∈ body.get "nextGames" ∧ x.title ∉ s.posted_upcoming.map Game.title) ∧
        (run_check (some body) disc cm force ic today now saveOk s g).state.posted_upcoming =
            s.posted_upcoming ++ p ∧
        ∀ c pl, Effect.announceUpcoming c pl ∈
            (run_check (some body) disc cm force ic today now saveOk s g).effects →
          pl = p := by
  intro body disc cm force ic today now saveOk s g h
  obtain ⟨b2, hd, heq, hsave⟩ :=
    run_check_announced_state (some body) disc cm force ic today now saveOk s g h
  injection hd with hd
  subst hd
  rw [heq, run_check_changed_true]
  refine ⟨new_upcoming_of (body.get "nextGames") s.posted_upcoming, rfl, ?_, rfl, ?_⟩
  · intro x
    constructor
    · intro hx
      exact new_upcoming_of_sub _ _ x hx
    · rintro ⟨hx1, hx2⟩
      rw [new_upcoming_of, List.mem_filter]
      exact ⟨hx1, by simp [hx2]⟩
  · intro c pl hmem
    rcases List.mem_cons.mp hmem with h2 | h2
    · exact Effect.noConfusion h2
    · exact (mem_announceEffects _ _ _ _ h2).2.2 c pl rfl

/-- Witness for C8 at the spec's scenario 3: stored upcoming B, fetched
next B and C — the payload is exactly C and the stored list becomes B, C. -/
theorem announce_payload_witness :
    ∃ p,
      (run_check (some ⟨[("currentGames", [⟨some "A", none⟩]),
            ("nextGames", [⟨some "B", none⟩, ⟨some "C", none⟩])]⟩) [1] none
          false none "2026-10-12" 0 true ⟨[], [⟨some "B", none⟩], none⟩
          emptyGrants).announcedUpcoming = some p ∧
      (∀ x, x ∈ p ↔
        x ∈ FetchBody.get ⟨[("currentGames", [⟨some "A", none⟩]),
            ("nextGames", [⟨some "B", none⟩, ⟨some "C", none⟩])]⟩ "nextGames" ∧
          x.title ∉ List.map Game.title [⟨some "B", none⟩]) ∧
      (run_check (some ⟨[("currentGames", [⟨some "A", none⟩]),
            ("nextGames", [⟨some "B", none⟩, ⟨some "C", none⟩])]⟩) [1] none
          false none "2026-10-12" 0 true ⟨[], [⟨some "B", none⟩], none⟩
          emptyGrants).state.posted_upcoming = [⟨some "B", none⟩] ++ p ∧
      ∀ c pl, Effect.announceUpcoming c pl ∈
          (run_check (some ⟨[("currentGames", [⟨some "A", none⟩]),
              ("nextGames", [⟨some "B", none⟩, ⟨some "C", none⟩])]⟩) [1] none
            false none "2026-10-12" 0 true ⟨[], [⟨some "B", none⟩], none⟩
            emptyGrants).effects →
        pl = p :=
  announce_payload_spec ⟨[("currentGames", [⟨some "A", none⟩]),
      ("nextGames", [⟨some "B", none⟩, ⟨some "C", none⟩])]⟩ [1] none false none
    "2026-10-12" 0 true ⟨[], [⟨some "B", none⟩], none⟩ emptyGrants (by decide)

end Fred
